import Mathlib

/-!
Shallow embedding of the google photos library API client.

Embedded from the source: the structured error rendering of model.py
(ErrorDetail) and the list-request construction of api.py
(_list_media_items_page, _list_albums_page, list_media_items, list_albums).

The authenticated request executor, error classifier and JSON decoding layer
live in a module (auth.py / exceptions.py) that is not part of this source
snapshot; those definitions are modelled from the spec and are marked as such
in their doc comments.
-/

/-- Minimal JSON value model used for request parameters, request bodies and
response bodies. -/
inductive Json where
  | obj : List (String × Json) → Json
  | arr : List Json → Json
  | str : String → Json
  | int : Int → Json
  | bool : Bool → Json
  | null : Json
deriving Repr

/-- Key lookup in an association list of JSON object fields, first match wins,
mirroring a Python dict built by successive insertions of distinct keys. -/
def lookupParam (ps : List (String × Json)) (key : String) : Option Json :=
  match ps with
  | [] => none
  | (k, v) :: rest => if k = key then some v else lookupParam rest key

/-- Field lookup on a JSON value: defined on objects, none otherwise. -/
def jsonLookup (j : Json) (key : String) : Option Json :=
  match j with
  | Json.obj fields => lookupParam fields key
  | _ => none

/-- ErrorDetail from model.py: error details from the API response, every
field optional. -/
structure ErrorDetail where
  status : Option String := none
  code : Option Int := none
  message : Option String := none
deriving Repr, DecidableEq

/-- Python truthiness of an optional string field: present and non-empty. -/
def truthyStr : Option String → Bool
  | none => false
  | some s => s != ""

/-- Python truthiness of an optional int field: present and non-zero. -/
def truthyInt : Option Int → Bool
  | none => false
  | some n => n != 0

/-- ErrorDetail.__str__ from model.py: starts from the empty string, appends
the status if truthy, then the code (in a space-parenthesis wrapper when the
accumulated message is non-empty, bare otherwise), then the message (after a
colon-space separator when the accumulated message is non-empty). -/
def ErrorDetail.str (e : ErrorDetail) : String :=
  let m0 := ""
  let m1 := if truthyStr e.status then m0 ++ e.status.getD "" else m0
  let m2 :=
    if truthyInt e.code then
      if m1 != "" then m1 ++ " (" ++ toString (e.code.getD 0) ++ ")"
      else m1 ++ toString (e.code.getD 0)
    else m1
  let m3 :=
    if truthyStr e.message then
      (if m2 != "" then m2 ++ ": " else m2) ++ e.message.getD ""
    else m2
  m3

/-- DEFAULT_PAGE_SIZE from api.py. -/
def DEFAULT_PAGE_SIZE : Int := 20

/-- GET_MEDIA_ITEM_FIELDS from api.py. -/
def GET_MEDIA_ITEM_FIELDS : String :=
  "id,baseUrl,mimeType,filename,mediaMetadata(width,height,photo,video)"

/-- LIST_ALBUMS_FIELDS from api.py. -/
def LIST_ALBUMS_FIELDS : String :=
  "nextPageToken,albums(id,title,coverPhotoBaseUrl,coverPhotoMediaItemId)"

/-- HTTP method of an outgoing request. -/
inductive HttpMethod where
  | get
  | post
deriving Repr, DecidableEq

/-- Request descriptor: method, relative path, query parameters and optional
JSON body (the fields the embedded api.py functions fill in). -/
structure RequestDescriptor where
  method : HttpMethod
  path : String
  params : List (String × Json)
  jsonBody : Option Json
deriving Repr

/-- Python value-or-default on an optional int, as in
page_size or DEFAULT_PAGE_SIZE: both None and 0 are falsy and select the
default. -/
def pyOrInt : Option Int → Int → Int
  | none, d => d
  | some n, d => if n = 0 then d else n

/-- The FAVORITES feature filter object built by _list_media_items_page. -/
def favoritesFilter : Json :=
  Json.obj [("featureFilter", Json.obj [("includedFeatures", Json.str "FAVORITES")])]

/-- _list_media_items_page from api.py: builds args with pageSize (defaulted),
optional pageToken, and routes to POST v1/mediaItems:search with albumId and
filters in the JSON body when album_id is set or favorites is requested,
otherwise to GET v1/mediaItems with args as query parameters. -/
def listMediaItemsPage (page_size : Option Int) (page_token : Option String)
    (album_id : Option String) (favorites : Bool) : RequestDescriptor :=
  let args : List (String × Json) :=
    [("pageSize", Json.int (pyOrInt page_size DEFAULT_PAGE_SIZE))]
  let args : List (String × Json) :=
    match page_token with
    | some t => args ++ [("pageToken", Json.str t)]
    | none => args
  if album_id.isSome || favorites then
    let args : List (String × Json) :=
      match album_id with
      | some a => args ++ [("albumId", Json.str a)]
      | none => args
    let args : List (String × Json) :=
      if favorites then args ++ [("filters", favoritesFilter)] else args
    { method := HttpMethod.post
      path := "v1/mediaItems:search"
      params := [("fields", Json.str GET_MEDIA_ITEM_FIELDS)]
      jsonBody := some (Json.obj args) }
  else
    { method := HttpMethod.get
      path := "v1/mediaItems"
      params := args ++ [("fields", Json.str GET_MEDIA_ITEM_FIELDS)]
      jsonBody := none }

/-- _list_albums_page from api.py: GET v1/albums with pageSize (defaulted),
fields, and optional pageToken as query parameters. -/
def listAlbumsPage (page_size : Option Int) (page_token : Option String) :
    RequestDescriptor :=
  let params : List (String × Json) :=
    [("pageSize", Json.int (pyOrInt page_size DEFAULT_PAGE_SIZE)),
     ("fields", Json.str LIST_ALBUMS_FIELDS)]
  let params : List (String × Json) :=
    match page_token with
    | some t => params ++ [("pageToken", Json.str t)]
    | none => params
  { method := HttpMethod.get
    path := "v1/albums"
    params := params
    jsonBody := none }

/-- Outgoing parameters of a request: the JSON object body for a search POST,
otherwise the query parameters. -/
def RequestDescriptor.sentParams (r : RequestDescriptor) : List (String × Json) :=
  match r.jsonBody with
  | some (Json.obj fields) => fields
  | _ => r.params

/-- Remove every entry with the given key from a parameter list. -/
def removeKey (ps : List (String × Json)) (key : String) : List (String × Json) :=
  ps.filter (fun p => p.1 != key)

/-- Result of a top-level list call: the first fetched page request and the
page-fetch closure handed to the paginated result. -/
structure PaginatedCall where
  firstPage : RequestDescriptor
  fetchPage : Option String → RequestDescriptor

/-- list_media_items from api.py: builds the closure get_next_page over
page_size, album_id and favorites, fetches page 1 with token None, and hands
the closure to the ListMediaItemResult. The caller-supplied page_token is not
read by the closure. -/
def list_media_items (page_size : Option Int) (page_token : Option String)
    (album_id : Option String) (favorites : Bool) : PaginatedCall :=
  let get_next_page := fun (next_page_token : Option String) =>
    listMediaItemsPage page_size next_page_token album_id favorites
  { firstPage := get_next_page none, fetchPage := get_next_page }

/-- list_albums from api.py: builds the closure get_next_page over page_size,
fetches page 1 with token None, and hands the closure to the ListAlbumResult. -/
def list_albums (page_size : Option Int) (page_token : Option String) :
    PaginatedCall :=
  let get_next_page := fun (next_page_token : Option String) =>
    listAlbumsPage page_size next_page_token
  { firstPage := get_next_page none, fetchPage := get_next_page }

/-- HTTP response seen by the executor: status code, transport reason phrase,
and the body as parsed JSON when it parses at all. -/
structure HttpResponse where
  status : Nat
  reason : String
  body : Option Json
deriving Repr

/-- Modelled from the spec: the classified error taxonomy of sections 4.1 and
7 — the module exceptions.py holding it is not part of this source snapshot.
Forbidden is ApiForbiddenException, unauthorized is the internal 401
classification, generic is the Generic API Failure ApiException. -/
inductive ApiError where
  | forbidden : String → ApiError
  | unauthorized : String → ApiError
  | generic : String → ApiError
deriving Repr, DecidableEq

/-- Modelled from the spec: extraction of the structured error detail of the
error wire shape in section 6 from a response body — the module auth.py
holding it is not part of this source snapshot. Reads the code, message and
status fields under the top-level error key; unknown keys such as errors are
ignored. -/
def parseErrorDetail (body : Option Json) : Option ErrorDetail :=
  match body with
  | some j =>
    match jsonLookup j "error" with
    | some e =>
      some
        { status :=
            match jsonLookup e "status" with
            | some (Json.str s) => some s
            | _ => none
          code :=
            match jsonLookup e "code" with
            | some (Json.int n) => some n
            | _ => none
          message :=
            match jsonLookup e "message" with
            | some (Json.str s) => some s
            | _ => none }
    | none => none
  | none => none

/-- Modelled from the spec: Generic API Failure message assembly of sections
4.1 and 8 — auth.py is not part of this source snapshot. With a structured
error body the message is the literal text Error from API, the structured
detail rendered by ErrorDetail.str, and the transport reason phrase, joined
by colon-space; with no structured body it falls back to the raw HTTP reason
phrase. -/
def genericMessage (r : HttpResponse) : String :=
  match parseErrorDetail r.body with
  | some d => "Error from API" ++ ": " ++ ErrorDetail.str d ++ ": " ++ r.reason
  | none => r.reason

/-- Modelled from the spec: the Error Classifier of section 4.1 — auth.py is
not part of this source snapshot. Status 403 is Forbidden, status 401 is the
internal Unauthorized, any other terminal failure is a Generic API Failure. -/
def classifyError (r : HttpResponse) : ApiError :=
  if r.status = 403 then ApiError.forbidden (genericMessage r)
  else if r.status = 401 then ApiError.unauthorized (genericMessage r)
  else ApiError.generic (genericMessage r)

/-- A 2xx status code. -/
def isSuccessStatus (s : Nat) : Bool :=
  200 ≤ s && s < 300

/-- Token provider interface of section 6: a current access token and the
token obtained by the forced-refresh path. -/
structure TokenProvider where
  accessToken : String
  refreshedToken : String
deriving Repr, DecidableEq

/-- Outcome of one executor call: the returned response or raised classified
error, the bearer token used by each execution in order, and the number of
forced token refreshes performed. -/
structure RequestOutcome where
  result : Except ApiError HttpResponse
  executions : List String
  refreshes : Nat

/-- Modelled from the spec: the Authenticated Request Executor of section 4.2
— auth.py is not part of this source snapshot. Executes with the provider's
current token; on a 401 it forces one refresh and re-executes exactly once
with the refreshed token; a failing retried response, a second 401 included,
is classified and raised, never retried again; any other non-2xx response is
classified and raised; a 2xx response is returned. -/
def executeRequest (tp : TokenProvider) (transport : Nat → String → HttpResponse) :
    RequestOutcome :=
  let r0 := transport 0 tp.accessToken
  if r0.status = 401 then
    let r1 := transport 1 tp.refreshedToken
    if isSuccessStatus r1.status then
      { result := Except.ok r1
        executions := [tp.accessToken, tp.refreshedToken]
        refreshes := 1 }
    else
      { result := Except.error (classifyError r1)
        executions := [tp.accessToken, tp.refreshedToken]
        refreshes := 1 }
  else if isSuccessStatus r0.status then
    { result := Except.ok r0, executions := [tp.accessToken], refreshes := 0 }
  else
    { result := Except.error (classifyError r0), executions := [tp.accessToken], refreshes := 0 }

/-- An authenticated client: the token provider and the transport, which maps
a method, an attempt index and a bearer token to the response. -/
structure AbstractAuth where
  provider : TokenProvider
  transport : HttpMethod → Nat → String → HttpResponse

/-- Modelled from the spec: the get operation of section 4.2 — auth.py is not
part of this source snapshot. Runs the executor over the GET transport. -/
def AbstractAuth.get (a : AbstractAuth) : Except ApiError HttpResponse :=
  (executeRequest a.provider (a.transport HttpMethod.get)).result

/-- Modelled from the spec: the post operation of section 4.2 — auth.py is
not part of this source snapshot. Runs the executor over the POST transport. -/
def AbstractAuth.post (a : AbstractAuth) : Except ApiError HttpResponse :=
  (executeRequest a.provider (a.transport HttpMethod.post)).result

/-- Python type name of a JSON value, used in the shape-mismatch message. -/
def jsonTypeName : Json → String
  | Json.obj _ => "dict"
  | Json.arr _ => "list"
  | Json.str _ => "str"
  | Json.int _ => "int"
  | Json.bool _ => "bool"
  | Json.null => "NoneType"

/-- Modelled from the spec: the JSON Decoding Layer of section 4.3 — auth.py
is not part of this source snapshot. The body must parse as JSON and be a
mapping, not an array; on shape mismatch a Generic API Failure is raised with
a message indicating the unexpected type. -/
def decodeJsonBody (r : HttpResponse) : Except ApiError Json :=
  match r.body with
  | some (Json.obj fields) => Except.ok (Json.obj fields)
  | some j => Except.error (ApiError.generic ("Unexpected response type: " ++ jsonTypeName j))
  | none => Except.error (ApiError.generic "Server response is not valid json")

/-- Modelled from the spec: the get_json operation of sections 4.2 and 4.3 —
auth.py is not part of this source snapshot. Executes a GET and decodes the
body. -/
def AbstractAuth.get_json (a : AbstractAuth) : Except ApiError Json :=
  a.get.bind decodeJsonBody

/-- Modelled from the spec: the post_json operation of sections 4.2 and 4.3 —
auth.py is not part of this source snapshot. Executes a POST and decodes the
body. -/
def AbstractAuth.post_json (a : AbstractAuth) : Except ApiError Json :=
  a.post.bind decodeJsonBody

/-- The structured 400 error body served by test_get_json_response_bad_request
in test_auth.py. -/
def badRequestBody : Json :=
  Json.obj
    [("error", Json.obj
      [("errors", Json.arr
        [Json.obj
          [("domain", Json.str "calendar"),
           ("reason", Json.str "timeRangeEmpty"),
           ("message", Json.str "The specified time range is empty."),
           ("locationType", Json.str "parameter"),
           ("location", Json.str "timeMax")]]),
       ("code", Json.int 400),
       ("message", Json.str "The specified time range is empty.")])]

/-- The 400 Bad Request response of test_get_json_response_bad_request. -/
def badRequestResponse : HttpResponse :=
  { status := 400, reason := "Bad Request", body := some badRequestBody }

/-- A client whose transport always serves the 400 Bad Request response. -/
def badRequestAuth : AbstractAuth :=
  { provider := { accessToken := "some-token", refreshedToken := "some-token" }
    transport := fun _ _ _ => badRequestResponse }

/-- A token provider with distinct current and refreshed tokens. -/
def sampleProvider : TokenProvider :=
  { accessToken := "token-1", refreshedToken := "token-2" }

/-- A transport that answers 401 Unauthorized to every execution. -/
def alwaysUnauthorized : Nat → String → HttpResponse :=
  fun _ _ => { status := 401, reason := "Unauthorized", body := none }

/-- A bare 403 response with no body, as served by test_forbidden_error. -/
def forbiddenResponse : HttpResponse :=
  { status := 403, reason := "Forbidden", body := none }

theorem le_length_toDigitsCore (b f n : Nat) (ds : List Char) :
    ds.length ≤ (Nat.toDigitsCore b f n ds).length := by
  induction f generalizing n ds with
  | zero => simp [Nat.toDigitsCore]
  | succ f ih =>
    simp only [Nat.toDigitsCore]
    split
    · exact Nat.le_succ _
    · exact Nat.le_trans (Nat.le_succ ds.length)
        (ih (n / b) (Nat.digitChar (n % b) :: ds))

theorem length_pos_toDigits (n : Nat) : 0 < (Nat.toDigits 10 n).length := by
  simp only [Nat.toDigits, Nat.toDigitsCore]
  split
  · exact Nat.succ_pos _
  · exact le_length_toDigitsCore 10 n (n / 10) [Nat.digitChar (n % 10)]

theorem toString_int_ne_empty (c : Int) : toString c ≠ "" := by
  have hlen : 0 < (toString c).length := by
    cases c with
    | ofNat m =>
      show 0 < (Nat.repr m).length
      simpa [Nat.repr, List.asString, String.length] using length_pos_toDigits m
    | negSucc m =>
      show 0 < ("-" ++ Nat.repr (Nat.succ m)).length
      rw [String.length_append]
      exact Nat.lt_of_lt_of_le (by decide) (Nat.le_add_right _ _)
  intro heq
  rw [heq] at hlen
  simp [String.length] at hlen

theorem string_eq_empty_of_length (s : String) (h : s.length = 0) : s = "" := by
  cases s with
  | mk data =>
    cases data with
    | nil => rfl
    | cons a l => simp [String.length] at h

theorem append_left_ne_empty (s t : String) (h : s ≠ "") : s ++ t ≠ "" := by
  intro heq
  have hl := congrArg String.length heq
  rw [String.length_append] at hl
  exact h (string_eq_empty_of_length s (Nat.eq_zero_of_add_eq_zero_right hl))

/-- C1: for every one of the operations get, get_json, post and post_json,
a 400 response carrying the structured error body with code 400 and message
"The specified time range is empty." together with the transport reason
phrase "Bad Request" raises a Generic API Failure whose message is exactly
"Error from API: 400: The specified time range is empty.: Bad Request". -/
theorem bad_request_error_message_exact :
    badRequestAuth.get = Except.error (ApiError.generic
      "Error from API: 400: The specified time range is empty.: Bad Request") ∧
    badRequestAuth.get_json = Except.error (ApiError.generic
      "Error from API: 400: The specified time range is empty.: Bad Request") ∧
    badRequestAuth.post = Except.error (ApiError.generic
      "Error from API: 400: The specified time range is empty.: Bad Request") ∧
    badRequestAuth.post_json = Except.error (ApiError.generic
      "Error from API: 400: The specified time range is empty.: Bad Request") :=
  ⟨rfl, rfl, rfl, rfl⟩

/-- C2 counterexample: with status, code and message all populated,
ErrorDetail.str renders the code parenthesised after the status, not joined
to it with colon-space as the claim states. -/
theorem code_in_parens_counterexample :
    ErrorDetail.str
        { status := some "PERMISSION_DENIED", code := some 403,
          message := some "The caller does not have permission" } =
      "PERMISSION_DENIED (403): The caller does not have permission" ∧
    "PERMISSION_DENIED (403): The caller does not have permission" ≠
      "PERMISSION_DENIED: 403: The caller does not have permission" := by
  exact ⟨rfl, by decide⟩

/-- C2 (amended): the assembled message contains exactly the populated,
truthy parts in the order status, code, message; a populated code follows a
populated status as a space-parenthesised suffix and is rendered bare
otherwise; a populated message is joined to any earlier part with
colon-space; a part that is alone stands alone. -/
theorem errordetail_str_characterization (s : String) (c : Int) (m : String)
    (hs : s ≠ "") (hc : c ≠ 0) (hm : m ≠ "") :
    ErrorDetail.str { status := some s, code := some c, message := some m } =
      s ++ " (" ++ toString c ++ ")" ++ ": " ++ m ∧
    ErrorDetail.str { status := some s, code := some c, message := none } =
      s ++ " (" ++ toString c ++ ")" ∧
    ErrorDetail.str { status := some s, code := none, message := some m } =
      s ++ ": " ++ m ∧
    ErrorDetail.str { status := none, code := some c, message := some m } =
      toString c ++ ": " ++ m ∧
    ErrorDetail.str { status := some s, code := none, message := none } = s ∧
    ErrorDetail.str { status := none, code := some c, message := none } =
      toString c ∧
    ErrorDetail.str { status := none, code := none, message := some m } = m := by
  have hs' : (s != "") = true := bne_iff_ne.mpr hs
  have hc' : (c != 0) = true := bne_iff_ne.mpr hc
  have hm' : (m != "") = true := bne_iff_ne.mpr hm
  have ht' : (toString c != "") = true := bne_iff_ne.mpr (toString_int_ne_empty c)
  have hp : (s ++ " (" ++ toString c ++ ")") ≠ "" :=
    append_left_ne_empty _ _ (append_left_ne_empty _ _ (append_left_ne_empty _ _ hs))
  refine ⟨?_, ?_, ?_, ?_, ?_, ?_, ?_⟩ <;>
    simp [ErrorDetail.str, truthyStr, truthyInt, hs', hc', hm', ht', hs, hm,
      toString_int_ne_empty c, hp]

/-- C2 witness: the amended characterisation applied to the populated detail
status PERMISSION_DENIED, code 403, message on permission. -/
theorem errordetail_str_characterization_witness :
    ("PERMISSION_DENIED" ≠ "" ∧ (403 : Int) ≠ 0 ∧
      "The caller does not have permission" ≠ "") ∧
    ErrorDetail.str
        { status := some "PERMISSION_DENIED", code := some 403,
          message := some "The caller does not have permission" } =
      "PERMISSION_DENIED" ++ " (" ++ toString (403 : Int) ++ ")" ++ ": " ++
        "The caller does not have permission" :=
  ⟨⟨by decide, by decide, by decide⟩,
    (errordetail_str_characterization "PERMISSION_DENIED" 403
      "The caller does not have permission"
      (by decide) (by decide) (by decide)).1⟩

/-- C10: a structured error detail whose numeric code is present but zero
renders exactly as one whose code is absent: the code part is omitted. -/
theorem zero_code_omitted (s : Option String) (m : Option String) :
    ErrorDetail.str { status := s, code := some 0, message := m } =
      ErrorDetail.str { status := s, code := none, message := m } := rfl

/-- C3: a request whose first execution answers 401 triggers exactly one
forced token refresh and exactly one re-execution with the refreshed token;
a second 401 is classified and raised, not retried; no call chain performs
more than two executions or more than one refresh. -/
theorem unauthorized_retry_once (tp : TokenProvider)
    (transport : Nat → String → HttpResponse) :
    ((executeRequest tp transport).executions.length ≤ 2 ∧
      (executeRequest tp transport).refreshes ≤ 1) ∧
    ((transport 0 tp.accessToken).status = 401 →
      (executeRequest tp transport).refreshes = 1 ∧
      (executeRequest tp transport).executions =
        [tp.accessToken, tp.refreshedToken] ∧
      ((transport 1 tp.refreshedToken).status = 401 →
        (executeRequest tp transport).result =
          Except.error (classifyError (transport 1 tp.refreshedToken)))) := by
  refine ⟨?_, fun h0 => ⟨?_, ?_, fun h1 => ?_⟩⟩
  · simp only [executeRequest]
    split
    · split <;> exact ⟨by simp, by simp⟩
    · split <;> exact ⟨by simp, by simp⟩
  · simp only [executeRequest, h0, if_pos]
    split <;> rfl
  · simp only [executeRequest, h0, if_pos]
    split <;> rfl
  · have hfail : isSuccessStatus (transport 1 tp.refreshedToken).status = false := by
      rw [h1]
      decide
    simp only [executeRequest, h0, if_pos, hfail]
    rfl

/-- C3 witness: with a transport that answers 401 to both executions, the
executor refreshes once, executes with each token once, and raises the
classified second response. -/
theorem unauthorized_retry_once_witness :
    (alwaysUnauthorized 0 sampleProvider.accessToken).status = 401 ∧
    (alwaysUnauthorized 1 sampleProvider.refreshedToken).status = 401 ∧
    (executeRequest sampleProvider alwaysUnauthorized).refreshes = 1 ∧
    (executeRequest sampleProvider alwaysUnauthorized).executions =
      [sampleProvider.accessToken, sampleProvider.refreshedToken] ∧
    (executeRequest sampleProvider alwaysUnauthorized).result =
      Except.error (classifyError (alwaysUnauthorized 1 sampleProvider.refreshedToken)) := by
  have h := (unauthorized_retry_once sampleProvider alwaysUnauthorized).2 rfl
  exact ⟨rfl, rfl, h.1, h.2.1, h.2.2 rfl⟩

/-- C4: every response with status 403 is classified as the distinct
Forbidden error, never as the Generic API Failure. -/
theorem forbidden_on_403 (r : HttpResponse) (h : r.status = 403) :
    classifyError r = ApiError.forbidden (genericMessage r) ∧
    ∀ m, classifyError r ≠ ApiError.generic m := by
  constructor
  · simp [classifyError, h]
  · intro m hcontra
    simp [classifyError, h] at hcontra

/-- C4 witness: the bare 403 response is classified Forbidden and is not a
Generic API Failure. -/
theorem forbidden_on_403_witness :
    forbiddenResponse.status = 403 ∧
    classifyError forbiddenResponse =
      ApiError.forbidden (genericMessage forbiddenResponse) ∧
    classifyError forbiddenResponse ≠
      ApiError.generic (genericMessage forbiddenResponse) :=
  ⟨rfl, (forbidden_on_403 forbiddenResponse rfl).1,
    (forbidden_on_403 forbiddenResponse rfl).2 _⟩

/-- C5: a 200 response whose body is a JSON array is rejected by both
get_json and post_json with a Generic API Failure naming the unexpected
type, instead of a value being returned. -/
theorem json_array_body_rejected (elems : List Json) (phrase : String)
    (tp : TokenProvider) :
    AbstractAuth.get_json
        { provider := tp
          transport := fun _ _ _ =>
            { status := 200, reason := phrase, body := some (Json.arr elems) } } =
      Except.error (ApiError.generic "Unexpected response type: list") ∧
    AbstractAuth.post_json
        { provider := tp
          transport := fun _ _ _ =>
            { status := 200, reason := phrase, body := some (Json.arr elems) } } =
      Except.error (ApiError.generic "Unexpected response type: list") :=
  ⟨rfl, rfl⟩

/-- C6: a list_media_items page fetch routes through POST v1/mediaItems:search
exactly when an album id or the favorites filter is requested, with albumId
in the JSON body exactly when album_id is set and the FAVORITES featureFilter
exactly when favorites is true; otherwise it is a GET of v1/mediaItems with
no filter. -/
theorem list_media_items_routing (ps : Option Int) (pt : Option String)
    (aid : Option String) (fav : Bool) :
    ((aid.isSome || fav) = true →
      (listMediaItemsPage ps pt aid fav).method = HttpMethod.post ∧
      (listMediaItemsPage ps pt aid fav).path = "v1/mediaItems:search" ∧
      lookupParam (listMediaItemsPage ps pt aid fav).sentParams "albumId" =
        aid.map Json.str ∧
      lookupParam (listMediaItemsPage ps pt aid fav).sentParams "filters" =
        (if fav then some favoritesFilter else none)) ∧
    (aid = none → fav = false →
      (listMediaItemsPage ps pt aid fav).method = HttpMethod.get ∧
      (listMediaItemsPage ps pt aid fav).path = "v1/mediaItems" ∧
      (listMediaItemsPage ps pt aid fav).jsonBody = none ∧
      lookupParam (listMediaItemsPage ps pt aid fav).params "filters" = none) := by
  rcases aid with _ | a <;> rcases fav <;> rcases pt with _ | t <;>
    refine ⟨fun h => ?_, fun h1 h2 => ?_⟩ <;>
    first
      | exact ⟨rfl, rfl, rfl, rfl⟩
      | exact Bool.noConfusion h
      | exact Option.noConfusion h1
      | exact Bool.noConfusion h2

/-- C6 witness: with an album id and favorites requested, the page fetch is a
POST of v1/mediaItems:search carrying the albumId and the FAVORITES filter. -/
theorem list_media_items_routing_witness :
    ((some "album-1" : Option String).isSome || true) = true ∧
    (listMediaItemsPage none none (some "album-1") true).method =
      HttpMethod.post ∧
    (listMediaItemsPage none none (some "album-1") true).path =
      "v1/mediaItems:search" ∧
    lookupParam (listMediaItemsPage none none (some "album-1") true).sentParams
        "albumId" = (some "album-1" : Option String).map Json.str ∧
    lookupParam (listMediaItemsPage none none (some "album-1") true).sentParams
        "filters" = (if true then some favoritesFilter else none) := by
  have h := (list_media_items_routing none none (some "album-1") true).1 rfl
  exact ⟨rfl, h.1, h.2.1, h.2.2.1, h.2.2.2⟩

/-- C7: both page builders send pageSize 20 when the caller passes no page
size, and send a pageToken exactly when the caller passes one, equal to it. -/
theorem list_page_defaults_and_token (ps : Option Int) (pt : Option String)
    (aid : Option String) (fav : Bool) :
    lookupParam (listMediaItemsPage none pt aid fav).sentParams "pageSize" =
      some (Json.int 20) ∧
    lookupParam (listMediaItemsPage ps pt aid fav).sentParams "pageToken" =
      pt.map Json.str ∧
    lookupParam (listAlbumsPage none pt).sentParams "pageSize" =
      some (Json.int 20) ∧
    lookupParam (listAlbumsPage ps pt).sentParams "pageToken" =
      pt.map Json.str := by
  rcases aid with _ | a <;> rcases fav <;> rcases pt with _ | t <;>
    exact ⟨rfl, rfl, rfl, rfl⟩

/-- C8: the page-fetch closure handed to the paginated result by
list_media_items and list_albums reuses the original page size, album id and
favorites arguments for every continuation token, varying only the pageToken:
fetching for token t yields the page-1 request with pageToken t. -/
theorem fetch_closure_preserves_query (ps : Option Int) (pt0 : Option String)
    (aid : Option String) (fav : Bool) (t : String) :
    ((list_media_items ps pt0 aid fav).fetchPage (some t)).method =
      (list_media_items ps pt0 aid fav).firstPage.method ∧
    ((list_media_items ps pt0 aid fav).fetchPage (some t)).path =
      (list_media_items ps pt0 aid fav).firstPage.path ∧
    removeKey (((list_media_items ps pt0 aid fav).fetchPage (some t)).sentParams)
        "pageToken" =
      removeKey ((list_media_items ps pt0 aid fav).firstPage.sentParams)
        "pageToken" ∧
    lookupParam (((list_media_items ps pt0 aid fav).fetchPage (some t)).sentParams)
        "pageToken" = some (Json.str t) ∧
    (list_media_items ps pt0 aid fav).fetchPage (some t) =
      listMediaItemsPage ps (some t) aid fav ∧
    removeKey (((list_albums ps pt0).fetchPage (some t)).sentParams) "pageToken" =
      removeKey ((list_albums ps pt0).firstPage.sentParams) "pageToken" ∧
    lookupParam (((list_albums ps pt0).fetchPage (some t)).sentParams)
        "pageToken" = some (Json.str t) ∧
    (list_albums ps pt0).fetchPage (some t) = listAlbumsPage ps (some t) := by
  rcases aid with _ | a <;> rcases fav <;>
    exact ⟨rfl, rfl, rfl, rfl, rfl, rfl, rfl, rfl⟩

/-- C9: a caller-supplied page size of 0 is falsy in the builders and is
silently replaced by the default 20 in the outgoing pageSize parameter. -/
theorem zero_page_size_replaced_by_default (pt : Option String)
    (aid : Option String) (fav : Bool) :
    lookupParam (listMediaItemsPage (some 0) pt aid fav).sentParams "pageSize" =
      some (Json.int 20) ∧
    lookupParam (listAlbumsPage (some 0) pt).sentParams "pageSize" =
      some (Json.int 20) := by
  rcases aid with _ | a <;> rcases fav <;> rcases pt with _ | t <;>
    exact ⟨rfl, rfl⟩
